import Mathlib

set_option autoImplicit false

/-!
Shallow embedding of the DDoS/abuse-detection middleware of this repository
(src/src/middleware/ddos-detector.ts and the Redis-backed variant of the same
middleware) together with the relevant fragment of the configuration module
(src/config/index.ts).

Machine times are JavaScript epoch milliseconds modelled as `Int` (the source
subtracts `Date.now()` values); request counts and thresholds are `Int`
(JavaScript numbers used only integrally by the source).  `setTimeout`-scheduled
deletions are modelled as a list of pending (key, fireTime) timers on the
detector state; a timer whose fire time has been reached is executed before the
next evaluation is processed (`fireDueTimers`), mirroring the event loop running
due timer callbacks before later requests.
-/

namespace DDoS

/-- JavaScript number restricted to the values that occur in this code base:
an integer or NaN (what parseInt returns on a non-numeric string). -/
inductive JsNumber where
  | nan : JsNumber
  | int (n : Int) : JsNumber
deriving DecidableEq, Repr

/-- JavaScript value as it occurs in the configuration objects of this
code base: a number, a boolean or a string. -/
inductive JsValue where
  | num (n : JsNumber) : JsValue
  | bool (b : Bool) : JsValue
  | str (s : String) : JsValue
deriving DecidableEq, Repr

/-- JavaScript truthiness of a possibly-undefined value (`none` = undefined):
undefined, false, 0, NaN and the empty string are falsy. -/
def jsTruthy (v : Option JsValue) : Bool :=
  match v with
  | none => false
  | some (JsValue.bool b) => b
  | some (JsValue.num JsNumber.nan) => false
  | some (JsValue.num (JsNumber.int n)) => decide (n ≠ 0)
  | some (JsValue.str s) => decide (s ≠ "")

/-- JavaScript `a || d` on a possibly-undefined string `a` (used for
`req.ip || 'unknown'`): undefined and the empty string fall back to `d`. -/
def jsOrString (v : Option String) (d : String) : String :=
  match v with
  | none => d
  | some s => if s = "" then d else s

/-- JavaScript truthiness of a possibly-null string (used for
`if (isBlocked)` on the result of a Redis `get`). -/
def jsTruthyStr (v : Option String) : Bool :=
  match v with
  | none => false
  | some s => decide (s ≠ "")

/-- Accumulate a list of decimal digits into a number; any non-digit
character yields `none`. -/
def digitsToNat : List Char → Nat → Option Nat
  | [], acc => some acc
  | c :: rest, acc =>
      if c.isDigit then digitsToNat rest (acc * 10 + (c.toNat - 48)) else none

/-- `parseInt(s, 10)` restricted to plain decimal integer strings (with an
optional leading minus sign); `JsNumber.nan` models the NaN produced on a
string with no integer to parse.  (JavaScript would also parse a numeric
prefix of a mixed string; no such value occurs here.) -/
def parseIntDecimal (s : String) : JsNumber :=
  match s.data with
  | [] => JsNumber.nan
  | '-' :: rest =>
      (match digitsToNat rest 0 with
       | some v => if rest = [] then JsNumber.nan else JsNumber.int (-(v : Int))
       | none => JsNumber.nan)
  | l =>
      (match digitsToNat l 0 with
       | some v => JsNumber.int (v : Int)
       | none => JsNumber.nan)

/-- getEnvNumber of src/config/index.ts:
`value ? parseInt(value, 10) : defaultValue` where `value = process.env[key]`
(undefined and the empty string are falsy, so they yield the default). -/
def getEnvNumber (value : Option String) (defaultValue : Int) : JsNumber :=
  match value with
  | none => JsNumber.int defaultValue
  | some v => if v = "" then JsNumber.int defaultValue else parseIntDecimal v

/-- `config.ddos` of src/config/index.ts, as the JavaScript object it is:
a field list.  The fields are exactly windowSeconds, requestThreshold,
blockThreshold and blockDuration — the module defines no `enabled` field
under `ddos`.  `env` is the process environment. -/
def configDdos (env : String → Option String) : List (String × JsValue) :=
  [ ("windowSeconds", JsValue.num (getEnvNumber (env "DDOS_WINDOW_SECONDS") 60))
  , ("requestThreshold", JsValue.num (getEnvNumber (env "DDOS_REQUEST_THRESHOLD") 100))
  , ("blockThreshold", JsValue.num (getEnvNumber (env "DDOS_BLOCK_THRESHOLD") 200))
  , ("blockDuration", JsValue.num (getEnvNumber (env "DDOS_BLOCK_DURATION") 300)) ]

/-- JavaScript property access on an object: an absent field reads as
undefined (`none`). -/
def jsGetField (obj : List (String × JsValue)) (k : String) : Option JsValue :=
  match obj with
  | [] => none
  | (k1, v) :: rest => if k1 = k then some v else jsGetField rest k

/-- DDOS_CONFIG of src/src/middleware/ddos-detector.ts.  `enabled` holds what
`config.ddos.enabled` evaluates to (a possibly-undefined JavaScript value);
the numeric options are the config values. -/
structure DdosConfig where
  enabled : Option JsValue
  windowSeconds : Int
  requestThreshold : Int
  blockThreshold : Int
  blockDuration : Int
deriving DecidableEq, Repr

/-- Partial configuration accepted by updateDDoSConfig; a `none` field is
absent from the patch object and left unchanged by `Object.assign`. -/
structure DdosConfigPatch where
  enabled : Option (Option JsValue)
  windowSeconds : Option Int
  requestThreshold : Option Int
  blockThreshold : Option Int
  blockDuration : Option Int
deriving DecidableEq, Repr

/-- updateDDoSConfig of ddos-detector.ts: `Object.assign(DDOS_CONFIG, config)`
over the recognized fields. -/
def updateDDoSConfig (cfg : DdosConfig) (p : DdosConfigPatch) : DdosConfig :=
  { enabled := p.enabled.getD cfg.enabled
  , windowSeconds := p.windowSeconds.getD cfg.windowSeconds
  , requestThreshold := p.requestThreshold.getD cfg.requestThreshold
  , blockThreshold := p.blockThreshold.getD cfg.blockThreshold
  , blockDuration := p.blockDuration.getD cfg.blockDuration }

/-- Per-client record of the in-memory requestTracker map:
`{ count, firstRequest, blocked }`. -/
structure Tracker where
  count : Int
  firstRequest : Int
  blocked : Bool
deriving DecidableEq, Repr

/-- The requestTracker map, keyed by client identifier. -/
abbrev TrackerMap := List (String × Tracker)

/-- `Map.prototype.get`. -/
def mapGet (m : TrackerMap) (k : String) : Option Tracker :=
  match m with
  | [] => none
  | (k1, v) :: rest => if k1 = k then some v else mapGet rest k

/-- `Map.prototype.set`: replace the entry for the key or append a new one. -/
def mapSet (m : TrackerMap) (k : String) (v : Tracker) : TrackerMap :=
  match m with
  | [] => [(k, v)]
  | (k1, v1) :: rest => if k1 = k then (k1, v) :: rest else (k1, v1) :: mapSet rest k v

/-- `Map.prototype.delete`.  Keys are unique in a JavaScript Map, so removing
every matching entry is its delete and needs no uniqueness invariant. -/
def mapDelete (m : TrackerMap) (k : String) : TrackerMap :=
  match m with
  | [] => []
  | (k1, v1) :: rest => if k1 = k then mapDelete rest k else (k1, v1) :: mapDelete rest k

/-- Mutable state of the middleware module: the requestTracker map plus the
deletions scheduled by `setTimeout` (key and epoch-ms fire time). -/
structure DetectorState where
  requestTracker : TrackerMap
  timers : List (String × Int)
deriving DecidableEq, Repr

/-- Initial module state: empty map, no pending timers. -/
def DetectorState.empty : DetectorState := { requestTracker := [], timers := [] }

/-- Result record of the check functions:
`{ blocked, suspicious, count }`. -/
structure DDoSResult where
  blocked : Bool
  suspicious : Bool
  count : Int
deriving DecidableEq, Repr

/-- Body of checkDDoSInMemory after the expired-entry cleanup: initialize the
tracker if absent (`{ count: 0, firstRequest: currentTime, blocked: false }`),
short-circuit when blocked, otherwise increment the count, set the blocked
flag and schedule the delayed deletion when the block threshold is reached,
and classify.  `m` is the map after cleanup, `tracker` the surviving entry. -/
def ddosTrackRequest (cfg : DdosConfig) (ip : String) (currentTime : Int)
    (m : TrackerMap) (timers : List (String × Int)) (tracker : Option Tracker) :
    DDoSResult × DetectorState :=
  let t := tracker.getD { count := 0, firstRequest := currentTime, blocked := false }
  if t.blocked then
    ({ blocked := true, suspicious := false, count := t.count },
     { requestTracker := m, timers := timers })
  else
    let c := t.count + 1
    if cfg.blockThreshold ≤ c then
      ({ blocked := true, suspicious := false, count := c },
       { requestTracker := mapSet m ip { count := c, firstRequest := t.firstRequest, blocked := true }
       , timers := timers ++ [(ip, currentTime + cfg.blockDuration * 1000)] })
    else
      ({ blocked := false, suspicious := decide (cfg.requestThreshold ≤ c), count := c },
       { requestTracker := mapSet m ip { count := c, firstRequest := t.firstRequest, blocked := false }
       , timers := timers })

/-- checkDDoSInMemory of ddos-detector.ts: look the identifier up in
requestTracker, delete the entry when more than `windowMs` has elapsed since
its firstRequest (the cleanup applies to blocked entries too), then track the
request on the surviving entry. -/
def checkDDoSInMemory (cfg : DdosConfig) (ip : String) (currentTime windowMs : Int)
    (st : DetectorState) : DDoSResult × DetectorState :=
  match mapGet st.requestTracker ip with
  | some t0 =>
      if currentTime - t0.firstRequest > windowMs then
        ddosTrackRequest cfg ip currentTime (mapDelete st.requestTracker ip) st.timers none
      else
        ddosTrackRequest cfg ip currentTime st.requestTracker st.timers (some t0)
  | none => ddosTrackRequest cfg ip currentTime st.requestTracker st.timers none

/-- Fields of the inbound request read by the middleware.  `ip` is
possibly undefined. -/
structure Request where
  ip : Option String
  url : String
  method : String
  userAgent : Option String
deriving DecidableEq, Repr

/-- Severity levels used by the middleware through the logger. -/
inductive LogLevel where
  | error : LogLevel
  | warn : LogLevel
  | debug : LogLevel
deriving DecidableEq, Repr

/-- One observability event as emitted by the middleware.  `threshold` is
`none` when the log payload carries no threshold property (the error-level
payload of the source has no such property; the warn-level one does).  The
wall-clock ISO timestamp of the payload is not modelled. -/
structure LogEvent where
  level : LogLevel
  message : String
  ip : String
  url : String
  method : String
  requestCount : Int
  threshold : Option Int
  userAgent : Option String
deriving DecidableEq, Repr

/-- The fixed JSON body written on a block. -/
structure JsonBody where
  status : String
  code : String
  message : String
deriving DecidableEq, Repr

/-- HTTP response written by the middleware. -/
structure HttpResponse where
  statusCode : Int
  body : JsonBody
deriving DecidableEq, Repr

/-- `res.status(429).json({ status: 'error', code: 'DDOS_DETECTED', ... })`. -/
def blockedResponse : HttpResponse :=
  { statusCode := 429
  , body := { status := "error"
            , code := "DDOS_DETECTED"
            , message := "Too many requests. You have been temporarily blocked." } }

/-- Everything one invocation of the middleware does: the new module state,
the events handed to the logger, the response written (if any), and whether
`next()` was invoked. -/
structure DetectorOutput where
  state : DetectorState
  log : List LogEvent
  response : Option HttpResponse
  nextCalled : Bool
deriving DecidableEq, Repr

/-- ddosDetector of src/src/middleware/ddos-detector.ts (the variant guarded
by the enabled flag; tracking is synchronous and in-memory).  When
`!DDOS_CONFIG.enabled` it returns `next()` immediately; otherwise it runs
checkDDoSInMemory on `req.ip || 'unknown'` and applies the block / warn /
pass-through policy. -/
def ddosDetector (cfg : DdosConfig) (req : Request) (currentTime : Int)
    (st : DetectorState) : DetectorOutput :=
  if jsTruthy cfg.enabled = false then
    { state := st, log := [], response := none, nextCalled := true }
  else
    let clientIp := jsOrString req.ip "unknown"
    let windowMs := cfg.windowSeconds * 1000
    let r := (checkDDoSInMemory cfg clientIp currentTime windowMs st).1
    let st1 := (checkDDoSInMemory cfg clientIp currentTime windowMs st).2
    if r.blocked then
      { state := st1
      , log := [ { level := LogLevel.error, message := "DDoS: Request blocked"
                 , ip := clientIp, url := req.url, method := req.method
                 , requestCount := r.count, threshold := none
                 , userAgent := req.userAgent } ]
      , response := some blockedResponse
      , nextCalled := false }
    else if r.suspicious then
      { state := st1
      , log := [ { level := LogLevel.warn, message := "DDoS: Suspicious activity detected"
                 , ip := clientIp, url := req.url, method := req.method
                 , requestCount := r.count, threshold := some cfg.requestThreshold
                 , userAgent := req.userAgent } ]
      , response := none
      , nextCalled := true }
    else
      { state := st1, log := [], response := none, nextCalled := true }

/-- Run the due `setTimeout` deletions: every key whose scheduled fire time
has been reached is deleted from the map and its timer removed.  The event
loop runs due timer callbacks before later requests are processed. -/
def fireDueTimers (currentTime : Int) (st : DetectorState) : DetectorState :=
  { requestTracker :=
      (st.timers.filter (fun p => decide (p.2 ≤ currentTime))).foldl
        (fun m p => mapDelete m p.1) st.requestTracker
  , timers := st.timers.filter (fun p => decide (currentTime < p.2)) }

/-- Process a timestamped request sequence through the middleware, firing due
timers before each evaluation; returns the final state and the per-request
outputs in order. -/
def runDetector (cfg : DdosConfig) (st : DetectorState) :
    List (Request × Int) → DetectorState × List DetectorOutput
  | [] => (st, [])
  | (req, t) :: rest =>
      let out := ddosDetector cfg req t (fireDueTimers t st)
      let tail := runDetector cfg out.state rest
      (tail.1, out :: tail.2)

/-- The Redis client as consumed by checkDDoSWithRedis: get, atomic
increment, expire and set-with-expiry, each of which may reject. -/
structure RedisClient where
  getKey : String → Except String (Option String)
  incr : String → Except String Int
  expire : String → Int → Except String Bool
  setEx : String → Int → String → Except String Unit

/-- checkDDoSWithRedis of the Redis-backed middleware variant: short-circuit
on an existing block key, atomically increment the count key, set its expiry
on the first request of a window, set the block key with the block-duration
TTL when the block threshold is reached, and classify.  Every rejection of a
client call rejects the whole check. -/
def checkDDoSWithRedis (cfg : DdosConfig) (ip : String) (client : RedisClient) :
    Except String DDoSResult :=
  match client.getKey ("ddos:block:" ++ ip) with
  | Except.error e => Except.error e
  | Except.ok isBlocked =>
    if jsTruthyStr isBlocked then
      Except.ok { blocked := true, suspicious := false, count := 0 }
    else
      match client.incr ("ddos:count:" ++ ip) with
      | Except.error e => Except.error e
      | Except.ok count =>
        match (if count = 1 then client.expire ("ddos:count:" ++ ip) cfg.windowSeconds
               else Except.ok false) with
        | Except.error e => Except.error e
        | Except.ok _ =>
          if cfg.blockThreshold ≤ count then
            match client.setEx ("ddos:block:" ++ ip) cfg.blockDuration "1" with
            | Except.error e => Except.error e
            | Except.ok _ => Except.ok { blocked := true, suspicious := false, count := count }
          else
            Except.ok { blocked := false
                      , suspicious := decide (cfg.requestThreshold ≤ count)
                      , count := count }

/-- The body of the try block of checkDDoS: obtain a client (the promise may
reject, or resolve to no client), and if one is available run the Redis check
(whose rejection also lands in the catch). -/
def ddosStoreAttempt (getClient : Except String (Option RedisClient))
    (cfg : DdosConfig) (ip : String) : Except String (Option DDoSResult) :=
  match getClient with
  | Except.error e => Except.error e
  | Except.ok none => Except.ok none
  | Except.ok (some client) =>
      match checkDDoSWithRedis cfg ip client with
      | Except.error e => Except.error e
      | Except.ok r => Except.ok (some r)

/-- checkDDoS of the Redis-backed middleware variant: try the shared store;
any error is caught (the Boolean records the debug-level
"Redis not available" log) and the in-memory fallback is used; the fallback
is also used when no client is configured (with no debug log). -/
def checkDDoS (getClient : Except String (Option RedisClient)) (cfg : DdosConfig)
    (ip : String) (currentTime windowMs : Int) (st : DetectorState) :
    DDoSResult × DetectorState × Bool :=
  match ddosStoreAttempt getClient cfg ip with
  | Except.ok (some r) => (r, st, false)
  | Except.ok none =>
      let fallback := checkDDoSInMemory cfg ip currentTime windowMs st
      (fallback.1, fallback.2, false)
  | Except.error _ =>
      let fallback := checkDDoSInMemory cfg ip currentTime windowMs st
      (fallback.1, fallback.2, true)

/-- A client on which every call raises. -/
def failingClient : RedisClient :=
  { getKey := fun _ => Except.error "Redis connection failed"
  , incr := fun _ => Except.error "Redis connection failed"
  , expire := fun _ _ => Except.error "Redis connection failed"
  , setEx := fun _ _ _ => Except.error "Redis connection failed" }

/-- Run a timestamped identifier sequence through checkDDoS with a fixed
store, firing due timers before each evaluation; returns the final state and
the classification of each request in order. -/
def runCheckDDoS (getClient : Except String (Option RedisClient)) (cfg : DdosConfig)
    (st : DetectorState) : List (String × Int) → DetectorState × List DDoSResult
  | [] => (st, [])
  | (ip, t) :: rest =>
      let st0 := fireDueTimers t st
      let out := checkDDoS getClient cfg ip t (cfg.windowSeconds * 1000) st0
      let tail := runCheckDDoS getClient cfg out.2.1 rest
      (tail.1, out.1 :: tail.2)

/-! Concrete fixtures used by witnesses and counterexamples. -/

/-- Enabled configuration with a 1-second window, block threshold 2 and a
300-second block duration. -/
def cfgLowBlock : DdosConfig :=
  { enabled := some (JsValue.bool true), windowSeconds := 1
  , requestThreshold := 100, blockThreshold := 2, blockDuration := 300 }

/-- Enabled configuration with a 1-second window and the default thresholds. -/
def cfgBoundary : DdosConfig :=
  { enabled := some (JsValue.bool true), windowSeconds := 1
  , requestThreshold := 100, blockThreshold := 200, blockDuration := 300 }

/-- Enabled configuration whose block threshold is 1: the very first request
of a window is blocked. -/
def cfgBlockOne : DdosConfig :=
  { enabled := some (JsValue.bool true), windowSeconds := 60
  , requestThreshold := 1, blockThreshold := 1, blockDuration := 300 }

/-- Enabled configuration with the default numeric options. -/
def cfgDefaults : DdosConfig :=
  { enabled := some (JsValue.bool true), windowSeconds := 60
  , requestThreshold := 100, blockThreshold := 200, blockDuration := 300 }

/-- A request from client identifier "a". -/
def reqClientA : Request :=
  { ip := some "a", url := "/", method := "GET", userAgent := none }

/-- A request from client identifier "10.0.0.5". -/
def reqApi : Request :=
  { ip := some "10.0.0.5", url := "/api", method := "GET", userAgent := some "ua" }

/-- Process environment that sets DDOS_WINDOW_SECONDS to the non-positive
value -5 and leaves everything else unset. -/
def envNegWindow : String → Option String :=
  fun k => if k = "DDOS_WINDOW_SECONDS" then some "-5" else none

/-- Module state after the single request of reqApi at time 0 under
cfgDefaults: one stale counter entry, no pending timer. -/
def staleState : DetectorState :=
  (ddosDetector cfgDefaults reqApi 0 DetectorState.empty).state

/-- Module state holding a blocked entry for "a" (blocked at time 0 under
cfgLowBlock, deletion timer pending at 300000 ms). -/
def stBlocked : DetectorState :=
  { requestTracker := [("a", { count := 2, firstRequest := 0, blocked := true })]
  , timers := [("a", 300000)] }

/-- Module state holding an unblocked entry for "a" with count 3 and window
start 0. -/
def stMono : DetectorState :=
  { requestTracker := [("a", { count := 3, firstRequest := 0, blocked := false })]
  , timers := [] }

/-- Module state holding an unblocked entry for "10.0.0.5" with count 99 and
window start 0: the next request within the window reaches the default
requestThreshold. -/
def stWarn : DetectorState :=
  { requestTracker := [("10.0.0.5", { count := 99, firstRequest := 0, blocked := false })]
  , timers := [] }

/-- A client whose store holds no block key and whose increment yields 150;
all calls succeed. -/
def stubClient : RedisClient :=
  { getKey := fun _ => Except.ok none
  , incr := fun _ => Except.ok 150
  , expire := fun _ _ => Except.ok true
  , setEx := fun _ _ _ => Except.ok () }

/-! Helper lemmas about the map primitives and the detector, shared by the
claim theorems. -/

theorem mapGet_mapSet_self (m : TrackerMap) (k : String) (v : Tracker) :
    mapGet (mapSet m k v) k = some v := by
  induction m with
  | nil => simp [mapGet, mapSet]
  | cons p rest ih =>
      obtain ⟨k1, v1⟩ := p
      by_cases h : k1 = k
      · simp [mapSet, mapGet, h]
      · simp [mapSet, mapGet, h, ih]

theorem mapGet_mapSet_ne (m : TrackerMap) (k k2 : String) (v : Tracker)
    (h : k ≠ k2) : mapGet (mapSet m k v) k2 = mapGet m k2 := by
  induction m with
  | nil => simp [mapGet, mapSet, h]
  | cons p rest ih =>
      obtain ⟨k1, v1⟩ := p
      by_cases h1 : k1 = k
      · subst h1
        simp [mapSet, mapGet, h]
      · simp [mapSet, mapGet, h1, ih]

theorem mapGet_mapDelete_self (m : TrackerMap) (k : String) :
    mapGet (mapDelete m k) k = none := by
  induction m with
  | nil => simp [mapGet, mapDelete]
  | cons p rest ih =>
      obtain ⟨k1, v1⟩ := p
      by_cases h : k1 = k
      · simp [mapDelete, h, ih]
      · simp [mapDelete, mapGet, h, ih]

theorem mapGet_mapDelete_ne (m : TrackerMap) (k k2 : String)
    (h : k ≠ k2) : mapGet (mapDelete m k) k2 = mapGet m k2 := by
  induction m with
  | nil => simp [mapGet, mapDelete]
  | cons p rest ih =>
      obtain ⟨k1, v1⟩ := p
      by_cases h1 : k1 = k
      · subst h1
        simp [mapDelete, mapGet, h, ih, Ne.symm h]
      · simp [mapDelete, mapGet, h1, ih]

theorem mapGet_foldlDelete_ne (l : List (String × Int)) (m : TrackerMap) (k : String)
    (h : ∀ p ∈ l, p.1 ≠ k) :
    mapGet (l.foldl (fun m2 p => mapDelete m2 p.1) m) k = mapGet m k := by
  induction l generalizing m with
  | nil => simp
  | cons p rest ih =>
      have hp : p.1 ≠ k := h p (List.mem_cons_self _ _)
      have hr : ∀ q ∈ rest, q.1 ≠ k := fun q hq => h q (List.mem_cons_of_mem _ hq)
      simp only [List.foldl_cons]
      rw [ih (mapDelete m p.1) hr, mapGet_mapDelete_ne _ _ _ hp]

theorem mapGet_foldlDelete_none (l : List (String × Int)) (m : TrackerMap) (k : String)
    (h : mapGet m k = none) :
    mapGet (l.foldl (fun m2 p => mapDelete m2 p.1) m) k = none := by
  induction l generalizing m with
  | nil => simpa using h
  | cons p rest ih =>
      simp only [List.foldl_cons]
      apply ih
      by_cases hp : p.1 = k
      · subst hp
        exact mapGet_mapDelete_self m p.1
      · rw [mapGet_mapDelete_ne _ _ _ hp]
        exact h

theorem mapGet_foldlDelete_mem (l : List (String × Int)) (m : TrackerMap) (k : String)
    (h : ∃ p ∈ l, p.1 = k) :
    mapGet (l.foldl (fun m2 p => mapDelete m2 p.1) m) k = none := by
  induction l generalizing m with
  | nil => simp at h
  | cons p rest ih =>
      simp only [List.foldl_cons]
      obtain ⟨q, hq, hqk⟩ := h
      rcases List.mem_cons.mp hq with rfl | hq2
      · apply mapGet_foldlDelete_none
        subst hqk
        exact mapGet_mapDelete_self m q.1
      · exact ih _ ⟨q, hq2, hqk⟩

theorem ddosDetector_not_enabled (cfg : DdosConfig) (req : Request) (t : Int)
    (st : DetectorState) (h : jsTruthy cfg.enabled = false) :
    ddosDetector cfg req t st =
      { state := st, log := [], response := none, nextCalled := true } := by
  simp [ddosDetector, h]

theorem ddosTrackRequest_blocked (cfg : DdosConfig) (ip : String) (currentTime : Int)
    (m : TrackerMap) (timers : List (String × Int)) (t : Tracker) (h : t.blocked = true) :
    ddosTrackRequest cfg ip currentTime m timers (some t) =
      ({ blocked := true, suspicious := false, count := t.count },
       { requestTracker := m, timers := timers }) := by
  simp [ddosTrackRequest, h]

theorem ddosTrackRequest_fresh (cfg : DdosConfig) (ip : String) (currentTime : Int)
    (m : TrackerMap) (timers : List (String × Int))
    (h1 : 1 < cfg.requestThreshold) (h2 : 1 < cfg.blockThreshold) :
    ddosTrackRequest cfg ip currentTime m timers none =
      ({ blocked := false, suspicious := false, count := 1 },
       { requestTracker := mapSet m ip { count := 1, firstRequest := currentTime, blocked := false }
       , timers := timers }) := by
  have hb : ¬ cfg.blockThreshold ≤ (1 : Int) := by omega
  have hr : ¬ cfg.requestThreshold ≤ (1 : Int) := by omega
  simp [ddosTrackRequest, hb, hr]

theorem ddosTrackRequest_classify (cfg : DdosConfig) (ip : String) (currentTime : Int)
    (m : TrackerMap) (timers : List (String × Int)) (tracker : Option Tracker)
    (h : tracker = none ∨ ∃ t, tracker = some t ∧ t.blocked = false) :
    ((ddosTrackRequest cfg ip currentTime m timers tracker).1.blocked = true ↔
      cfg.blockThreshold ≤ (ddosTrackRequest cfg ip currentTime m timers tracker).1.count) ∧
    ((ddosTrackRequest cfg ip currentTime m timers tracker).1.suspicious = true ↔
      (¬ cfg.blockThreshold ≤ (ddosTrackRequest cfg ip currentTime m timers tracker).1.count ∧
        cfg.requestThreshold ≤ (ddosTrackRequest cfg ip currentTime m timers tracker).1.count)) := by
  rcases h with rfl | ⟨t, rfl, hb⟩
  · by_cases h1 : cfg.blockThreshold ≤ (1 : Int)
    · simp only [ddosTrackRequest]
      simp [h1]
    · simp only [ddosTrackRequest]
      simp [h1]
  · by_cases h1 : cfg.blockThreshold ≤ t.count + 1
    · simp only [ddosTrackRequest]
      simp [hb, h1]
    · simp only [ddosTrackRequest]
      simp [hb, h1]

theorem ddosTrackRequest_frame (cfg : DdosConfig) (ip : String) (currentTime : Int)
    (m : TrackerMap) (timers : List (String × Int)) (tracker : Option Tracker)
    (k : String) (h : ip ≠ k) :
    mapGet (ddosTrackRequest cfg ip currentTime m timers tracker).2.requestTracker k =
      mapGet m k ∧
    ∀ q ∈ (ddosTrackRequest cfg ip currentTime m timers tracker).2.timers,
      q ∈ timers ∨ q.1 = ip := by
  simp only [ddosTrackRequest]
  split_ifs with h1 h2 <;> constructor <;>
    simp [mapGet_mapSet_ne _ _ _ _ h] <;>
    intro a b hq <;> tauto

theorem checkDDoSInMemory_frame (cfg : DdosConfig) (ip : String) (currentTime windowMs : Int)
    (st : DetectorState) (k : String) (h : ip ≠ k) :
    mapGet (checkDDoSInMemory cfg ip currentTime windowMs st).2.requestTracker k =
      mapGet st.requestTracker k ∧
    ∀ q ∈ (checkDDoSInMemory cfg ip currentTime windowMs st).2.timers,
      q ∈ st.timers ∨ q.1 = ip := by
  cases hm : mapGet st.requestTracker ip with
  | none =>
      simp only [checkDDoSInMemory, hm]
      exact ddosTrackRequest_frame cfg ip currentTime st.requestTracker st.timers none k h
  | some t0 =>
      simp only [checkDDoSInMemory, hm]
      by_cases h1 : currentTime - t0.firstRequest > windowMs
      · simp only [if_pos h1]
        have h2 := ddosTrackRequest_frame cfg ip currentTime
          (mapDelete st.requestTracker ip) st.timers none k h
        rw [h2.1, mapGet_mapDelete_ne _ _ _ h]
        exact ⟨rfl, h2.2⟩
      · simp only [if_neg h1]
        exact ddosTrackRequest_frame cfg ip currentTime st.requestTracker st.timers (some t0) k h

theorem checkDDoSInMemory_blocked_within (cfg : DdosConfig) (ip : String)
    (currentTime windowMs : Int) (st : DetectorState) (t0 : Tracker)
    (hm : mapGet st.requestTracker ip = some t0) (hb : t0.blocked = true)
    (hwin : ¬ currentTime - t0.firstRequest > windowMs) :
    checkDDoSInMemory cfg ip currentTime windowMs st =
      ({ blocked := true, suspicious := false, count := t0.count }, st) := by
  simp only [checkDDoSInMemory, hm, if_neg hwin]
  rw [ddosTrackRequest_blocked cfg ip currentTime st.requestTracker st.timers t0 hb]

theorem checkDDoSInMemory_expired_reset (cfg : DdosConfig) (ip : String)
    (currentTime windowMs : Int) (st : DetectorState) (t0 : Tracker)
    (hm : mapGet st.requestTracker ip = some t0)
    (hexp : currentTime - t0.firstRequest > windowMs)
    (h1 : 1 < cfg.requestThreshold) (h2 : 1 < cfg.blockThreshold) :
    checkDDoSInMemory cfg ip currentTime windowMs st =
      ({ blocked := false, suspicious := false, count := 1 },
       { requestTracker := mapSet (mapDelete st.requestTracker ip) ip
           { count := 1, firstRequest := currentTime, blocked := false }
       , timers := st.timers }) := by
  simp only [checkDDoSInMemory, hm, if_pos hexp]
  exact ddosTrackRequest_fresh cfg ip currentTime (mapDelete st.requestTracker ip) st.timers h1 h2

theorem checkDDoSInMemory_fresh (cfg : DdosConfig) (ip : String)
    (currentTime windowMs : Int) (st : DetectorState)
    (hm : mapGet st.requestTracker ip = none)
    (h1 : 1 < cfg.requestThreshold) (h2 : 1 < cfg.blockThreshold) :
    checkDDoSInMemory cfg ip currentTime windowMs st =
      ({ blocked := false, suspicious := false, count := 1 },
       { requestTracker := mapSet st.requestTracker ip
           { count := 1, firstRequest := currentTime, blocked := false }
       , timers := st.timers }) := by
  simp only [checkDDoSInMemory, hm]
  exact ddosTrackRequest_fresh cfg ip currentTime st.requestTracker st.timers h1 h2

theorem checkDDoSInMemory_classify (cfg : DdosConfig) (ip : String)
    (currentTime windowMs : Int) (st : DetectorState)
    (h : ∀ t0, mapGet st.requestTracker ip = some t0 →
          t0.blocked = false ∨ currentTime - t0.firstRequest > windowMs) :
    ((checkDDoSInMemory cfg ip currentTime windowMs st).1.blocked = true ↔
      cfg.blockThreshold ≤ (checkDDoSInMemory cfg ip currentTime windowMs st).1.count) ∧
    ((checkDDoSInMemory cfg ip currentTime windowMs st).1.suspicious = true ↔
      (¬ cfg.blockThreshold ≤ (checkDDoSInMemory cfg ip currentTime windowMs st).1.count ∧
        cfg.requestThreshold ≤ (checkDDoSInMemory cfg ip currentTime windowMs st).1.count)) := by
  cases hm : mapGet st.requestTracker ip with
  | none =>
      simp only [checkDDoSInMemory, hm]
      exact ddosTrackRequest_classify cfg ip currentTime st.requestTracker st.timers none
        (Or.inl rfl)
  | some t0 =>
      by_cases hx : currentTime - t0.firstRequest > windowMs
      · simp only [checkDDoSInMemory, hm, if_pos hx]
        exact ddosTrackRequest_classify cfg ip currentTime
          (mapDelete st.requestTracker ip) st.timers none (Or.inl rfl)
      · rcases h t0 hm with hb | hexp
        · simp only [checkDDoSInMemory, hm, if_neg hx]
          exact ddosTrackRequest_classify cfg ip currentTime
            st.requestTracker st.timers (some t0) (Or.inr ⟨t0, rfl, hb⟩)
        · exact absurd hexp hx

theorem ddosDetector_frame (cfg : DdosConfig) (req : Request) (t : Int)
    (st : DetectorState) (k : String) (h : jsOrString req.ip "unknown" ≠ k) :
    mapGet (ddosDetector cfg req t st).state.requestTracker k = mapGet st.requestTracker k ∧
    ∀ q ∈ (ddosDetector cfg req t st).state.timers,
      q ∈ st.timers ∨ q.1 = jsOrString req.ip "unknown" := by
  by_cases he : jsTruthy cfg.enabled = false
  · rw [ddosDetector_not_enabled cfg req t st he]
    exact ⟨rfl, fun q hq => Or.inl hq⟩
  · have hf := checkDDoSInMemory_frame cfg (jsOrString req.ip "unknown") t
      (cfg.windowSeconds * 1000) st k h
    simp only [ddosDetector, if_neg he]
    split_ifs <;> exact hf

theorem runDetector_preserves_other (cfg : DdosConfig) (k : String)
    (evts : List (Request × Int)) :
    ∀ st : DetectorState,
    (∀ p ∈ evts, jsOrString p.1.ip "unknown" ≠ k) →
    (∀ q ∈ st.timers, q.1 ≠ k) →
    mapGet (runDetector cfg st evts).1.requestTracker k = mapGet st.requestTracker k ∧
    ∀ q ∈ (runDetector cfg st evts).1.timers, q.1 ≠ k := by
  induction evts with
  | nil => exact fun st _ ht => ⟨rfl, ht⟩
  | cons p rest ih =>
      intro st hev ht
      obtain ⟨req, t⟩ := p
      have hne : jsOrString req.ip "unknown" ≠ k := hev (req, t) (List.mem_cons_self _ _)
      have ht0 : ∀ q ∈ (fireDueTimers t st).timers, q.1 ≠ k := by
        intro q hq
        exact ht q (List.mem_filter.mp hq).1
      have hm0 : mapGet (fireDueTimers t st).requestTracker k = mapGet st.requestTracker k := by
        apply mapGet_foldlDelete_ne
        intro q hq
        exact ht q (List.mem_filter.mp hq).1
      have hd := ddosDetector_frame cfg req t (fireDueTimers t st) k hne
      have htout : ∀ q ∈ (ddosDetector cfg req t (fireDueTimers t st)).state.timers, q.1 ≠ k := by
        intro q hq
        rcases hd.2 q hq with hin | hq1
        · exact ht0 q hin
        · rw [hq1]; exact hne
      have hrest := ih (ddosDetector cfg req t (fireDueTimers t st)).state
        (fun q hq => hev q (List.mem_cons_of_mem _ hq)) htout
      constructor
      · simp only [runDetector]
        rw [hrest.1, hd.1, hm0]
      · simp only [runDetector]
        exact hrest.2

theorem runCheckDDoS_store_error (g : Except String (Option RedisClient))
    (cfg : DdosConfig) (evts : List (String × Int))
    (h : ∀ ip, ∃ e, ddosStoreAttempt g cfg ip = Except.error e) :
    ∀ st : DetectorState,
    runCheckDDoS g cfg st evts = runCheckDDoS (Except.ok none) cfg st evts := by
  induction evts with
  | nil => intro st; rfl
  | cons p rest ih =>
      intro st
      obtain ⟨ip, t⟩ := p
      obtain ⟨e, he⟩ := h ip
      have hc : checkDDoS g cfg ip t (cfg.windowSeconds * 1000) (fireDueTimers t st) =
          ((checkDDoSInMemory cfg ip t (cfg.windowSeconds * 1000) (fireDueTimers t st)).1,
           (checkDDoSInMemory cfg ip t (cfg.windowSeconds * 1000) (fireDueTimers t st)).2,
           true) := by
        simp [checkDDoS, he]
      have hn : checkDDoS (Except.ok none) cfg ip t (cfg.windowSeconds * 1000)
            (fireDueTimers t st) =
          ((checkDDoSInMemory cfg ip t (cfg.windowSeconds * 1000) (fireDueTimers t st)).1,
           (checkDDoSInMemory cfg ip t (cfg.windowSeconds * 1000) (fireDueTimers t st)).2,
           false) := by
        simp [checkDDoS, ddosStoreAttempt]
      simp only [runCheckDDoS, hc, hn]
      rw [ih]

/-! Claim theorems. -/

/-- Claim C1 counterexample: under cfgLowBlock (1-second window, block
threshold 2, 300-second block duration), client "a" is blocked on its second
request at time 0 (response written, next not called), yet its request at
time 1001 ms — about one second after the block and far before the
300-second block duration has elapsed — passes through again (no response,
next called) with a fresh count of 1, because the window-expiry cleanup of
checkDDoSInMemory deletes blocked records too.  This refutes the claim that
only blockDuration, and not window expiry, ends a block. -/
theorem c1_blocked_ends_at_window_expiry_counterexample :
    ((runDetector cfgLowBlock DetectorState.empty
        [(reqClientA, 0), (reqClientA, 0), (reqClientA, 1001)]).2.map
      (fun o => (o.response.isSome, o.nextCalled))) =
      [(false, true), (true, false), (false, true)] ∧
    mapGet (runDetector cfgLowBlock DetectorState.empty
        [(reqClientA, 0), (reqClientA, 0), (reqClientA, 1001)]).1.requestTracker "a" =
      some { count := 1, firstRequest := 1001, blocked := false } ∧
    (1001 : Int) < 0 + 300 * 1000 := by
  decide

/-- Claim C1 (amended): once an identifier's record is blocked, every
evaluation returns blocked with the stored count, incrementing nothing and
leaving the state unchanged, while the record survives; the block ends at the
earlier of (a) strictly more than windowMs after the record's firstRequest,
when the expired-entry cleanup deletes even a blocked record, and (b)
blockDuration seconds after the block was triggered, when the scheduled
deletion fires; after either deletion the identifier's next request starts a
fresh window and is allowed with count 1 (when both thresholds exceed 1). -/
theorem c1_block_semantics_amended (cfg : DdosConfig) (ip : String)
    (currentTime windowMs : Int) (st : DetectorState) (t0 : Tracker) (ft : Int) :
    (mapGet st.requestTracker ip = some t0 → t0.blocked = true →
      currentTime - t0.firstRequest ≤ windowMs →
      checkDDoSInMemory cfg ip currentTime windowMs st =
        ({ blocked := true, suspicious := false, count := t0.count }, st)) ∧
    (mapGet st.requestTracker ip = some t0 → currentTime - t0.firstRequest > windowMs →
      1 < cfg.requestThreshold → 1 < cfg.blockThreshold →
      checkDDoSInMemory cfg ip currentTime windowMs st =
        ({ blocked := false, suspicious := false, count := 1 },
         { requestTracker := mapSet (mapDelete st.requestTracker ip) ip
             { count := 1, firstRequest := currentTime, blocked := false }
         , timers := st.timers })) ∧
    ((ip, ft) ∈ st.timers → ft ≤ currentTime →
      mapGet (fireDueTimers currentTime st).requestTracker ip = none) ∧
    (mapGet st.requestTracker ip = none → 1 < cfg.requestThreshold →
      1 < cfg.blockThreshold →
      checkDDoSInMemory cfg ip currentTime windowMs st =
        ({ blocked := false, suspicious := false, count := 1 },
         { requestTracker := mapSet st.requestTracker ip
             { count := 1, firstRequest := currentTime, blocked := false }
         , timers := st.timers })) := by
  refine ⟨?_, ?_, ?_, ?_⟩
  · intro hm hb hwin
    exact checkDDoSInMemory_blocked_within cfg ip currentTime windowMs st t0 hm hb (by omega)
  · intro hm hexp h1 h2
    exact checkDDoSInMemory_expired_reset cfg ip currentTime windowMs st t0 hm hexp h1 h2
  · intro hmem hle
    apply mapGet_foldlDelete_mem
    refine ⟨(ip, ft), ?_, rfl⟩
    rw [List.mem_filter]
    exact ⟨hmem, by simpa using hle⟩
  · intro hm h1 h2
    exact checkDDoSInMemory_fresh cfg ip currentTime windowMs st hm h1 h2

/-- Claim C1 witness: concrete instances of the four amended conjuncts —
blocked short-circuit at time 500, window-expiry unblock at time 1001, timer
deletion at time 300000, and fresh restart on an absent record. -/
theorem c1_block_semantics_amended_witness :
    (checkDDoSInMemory cfgLowBlock "a" 500 1000 stBlocked =
      ({ blocked := true, suspicious := false, count := 2 }, stBlocked)) ∧
    (checkDDoSInMemory cfgLowBlock "a" 1001 1000 stBlocked =
      ({ blocked := false, suspicious := false, count := 1 },
       { requestTracker := mapSet (mapDelete stBlocked.requestTracker "a") "a"
           { count := 1, firstRequest := 1001, blocked := false }
       , timers := stBlocked.timers })) ∧
    (mapGet (fireDueTimers 300000 stBlocked).requestTracker "a" = none) ∧
    (checkDDoSInMemory cfgLowBlock "a" 400000 1000 DetectorState.empty =
      ({ blocked := false, suspicious := false, count := 1 },
       { requestTracker := mapSet DetectorState.empty.requestTracker "a"
           { count := 1, firstRequest := 400000, blocked := false }
       , timers := DetectorState.empty.timers })) :=
  ⟨(c1_block_semantics_amended cfgLowBlock "a" 500 1000 stBlocked
      { count := 2, firstRequest := 0, blocked := true } 0).1
      (by decide) rfl (by decide),
   (c1_block_semantics_amended cfgLowBlock "a" 1001 1000 stBlocked
      { count := 2, firstRequest := 0, blocked := true } 0).2.1
      (by decide) (by decide) (by decide) (by decide),
   (c1_block_semantics_amended cfgLowBlock "a" 300000 1000 stBlocked
      { count := 2, firstRequest := 0, blocked := true } 300000).2.2.1
      (by decide) (by decide),
   (c1_block_semantics_amended cfgLowBlock "a" 400000 1000 DetectorState.empty
      { count := 2, firstRequest := 0, blocked := true } 0).2.2.2
      (by decide) (by decide) (by decide)⟩

/-- Claim C2: for an evaluation whose identifier is not effectively blocked
(no record, an unblocked record, or an expired record), with the two-tier
thresholds ordered (requestThreshold ≤ blockThreshold), the classification is
determined by the resulting count N: N below requestThreshold is allowed,
requestThreshold ≤ N < blockThreshold is suspicious, and N ≥ blockThreshold
is blocked; the Redis-backed check classifies its incremented count the same
way. -/
theorem c2_threshold_classification :
    (∀ (cfg : DdosConfig) (ip : String) (currentTime windowMs : Int) (st : DetectorState),
      cfg.requestThreshold ≤ cfg.blockThreshold →
      (∀ t0, mapGet st.requestTracker ip = some t0 →
        t0.blocked = false ∨ currentTime - t0.firstRequest > windowMs) →
      ((checkDDoSInMemory cfg ip currentTime windowMs st).1.count < cfg.requestThreshold →
        (checkDDoSInMemory cfg ip currentTime windowMs st).1.blocked = false ∧
        (checkDDoSInMemory cfg ip currentTime windowMs st).1.suspicious = false) ∧
      (cfg.requestThreshold ≤ (checkDDoSInMemory cfg ip currentTime windowMs st).1.count →
        (checkDDoSInMemory cfg ip currentTime windowMs st).1.count < cfg.blockThreshold →
        (checkDDoSInMemory cfg ip currentTime windowMs st).1.blocked = false ∧
        (checkDDoSInMemory cfg ip currentTime windowMs st).1.suspicious = true) ∧
      (cfg.blockThreshold ≤ (checkDDoSInMemory cfg ip currentTime windowMs st).1.count →
        (checkDDoSInMemory cfg ip currentTime windowMs st).1.blocked = true)) ∧
    (∀ (cfg : DdosConfig) (ip : String) (client : RedisClient) (n : Int),
      client.getKey ("ddos:block:" ++ ip) = Except.ok none →
      client.incr ("ddos:count:" ++ ip) = Except.ok n →
      client.expire ("ddos:count:" ++ ip) cfg.windowSeconds = Except.ok true →
      client.setEx ("ddos:block:" ++ ip) cfg.blockDuration "1" = Except.ok () →
      (n < cfg.requestThreshold → n < cfg.blockThreshold →
        checkDDoSWithRedis cfg ip client =
          Except.ok { blocked := false, suspicious := false, count := n }) ∧
      (cfg.requestThreshold ≤ n → n < cfg.blockThreshold →
        checkDDoSWithRedis cfg ip client =
          Except.ok { blocked := false, suspicious := true, count := n }) ∧
      (cfg.blockThreshold ≤ n →
        checkDDoSWithRedis cfg ip client =
          Except.ok { blocked := true, suspicious := false, count := n })) := by
  constructor
  · intro cfg ip currentTime windowMs st hord h
    have hc := checkDDoSInMemory_classify cfg ip currentTime windowMs st h
    refine ⟨?_, ?_, ?_⟩
    · intro hlt
      constructor
      · refine Bool.eq_false_iff.mpr (fun hb => ?_)
        have := hc.1.mp hb
        omega
      · refine Bool.eq_false_iff.mpr (fun hs => ?_)
        have := hc.2.mp hs
        omega
    · intro hge hlt
      constructor
      · refine Bool.eq_false_iff.mpr (fun hb => ?_)
        have := hc.1.mp hb
        omega
      · exact hc.2.mpr ⟨by omega, hge⟩
    · intro hge
      exact hc.1.mpr hge
  · intro cfg ip client n hGet hIncr hExp hSet
    refine ⟨?_, ?_, ?_⟩
    · intro hr hb
      have hnr : ¬ cfg.requestThreshold ≤ n := by omega
      have hnb : ¬ cfg.blockThreshold ≤ n := by omega
      by_cases hn1 : n = 1
      · subst hn1
        simp [checkDDoSWithRedis, hGet, hIncr, hExp, hSet, jsTruthyStr, hnr, hnb]
      · simp [checkDDoSWithRedis, hGet, hIncr, hExp, hSet, jsTruthyStr, hn1, hnr, hnb]
    · intro hge hb
      have hnb : ¬ cfg.blockThreshold ≤ n := by omega
      by_cases hn1 : n = 1
      · subst hn1
        simp [checkDDoSWithRedis, hGet, hIncr, hExp, hSet, jsTruthyStr, hge, hnb]
      · simp [checkDDoSWithRedis, hGet, hIncr, hExp, hSet, jsTruthyStr, hn1, hge, hnb]
    · intro hge
      by_cases hn1 : n = 1
      · subst hn1
        simp [checkDDoSWithRedis, hGet, hIncr, hExp, hSet, jsTruthyStr, hge]
      · simp [checkDDoSWithRedis, hGet, hIncr, hExp, hSet, jsTruthyStr, hn1, hge]

/-- Claim C2 witness: a first request under the default thresholds (count 1,
below requestThreshold) is allowed in-memory, and a Redis-backed count of 150
(between the thresholds 100 and 200) is classified suspicious. -/
theorem c2_threshold_classification_witness :
    ((checkDDoSInMemory cfgDefaults "a" 0 60000 DetectorState.empty).1.blocked = false ∧
     (checkDDoSInMemory cfgDefaults "a" 0 60000 DetectorState.empty).1.suspicious = false) ∧
    checkDDoSWithRedis cfgDefaults "a" stubClient =
      Except.ok { blocked := false, suspicious := true, count := 150 } :=
  ⟨(c2_threshold_classification.1 cfgDefaults "a" 0 60000 DetectorState.empty
      (by decide) (fun t0 h => by simp [DetectorState.empty, mapGet] at h)).1 (by decide),
   (c2_threshold_classification.2 cfgDefaults "a" stubClient 150
      rfl rfl rfl rfl).2.1 (by decide) (by decide)⟩

/-- Claim C3 counterexample: with blockThreshold 1, the very first request is
blocked; the component writes the 429 rejection and emits exactly one
error-level event, but that event carries no threshold field — refuting the
claim that the blocked event includes the threshold among its fields. -/
theorem c3_error_event_lacks_threshold_counterexample :
    (ddosDetector cfgBlockOne reqApi 0 DetectorState.empty).response = some blockedResponse ∧
    (ddosDetector cfgBlockOne reqApi 0 DetectorState.empty).log =
      [ { level := LogLevel.error, message := "DDoS: Request blocked", ip := "10.0.0.5"
        , url := "/api", method := "GET", requestCount := 1, threshold := none
        , userAgent := some "ua" } ] ∧
    (∀ ev ∈ (ddosDetector cfgBlockOne reqApi 0 DetectorState.empty).log,
      ev.threshold = none) := by
  decide

/-- Claim C3 (amended): on a suspicious evaluation exactly one warning-level
event is emitted, carrying the identifier, url, method, current count and the
requestThreshold, and the request proceeds; on a blocked evaluation exactly
one error-level event is emitted carrying the identifier, url, method and
current count — but no threshold field — and the component writes the exact
429 DDOS_DETECTED JSON body and does not invoke the next stage. -/
theorem c3_events_and_rejection_amended (cfg : DdosConfig) (req : Request)
    (t : Int) (st : DetectorState) (h : jsTruthy cfg.enabled = true) :
    ((checkDDoSInMemory cfg (jsOrString req.ip "unknown") t
        (cfg.windowSeconds * 1000) st).1.blocked = true →
      ddosDetector cfg req t st =
        { state := (checkDDoSInMemory cfg (jsOrString req.ip "unknown") t
            (cfg.windowSeconds * 1000) st).2
        , log := [ { level := LogLevel.error, message := "DDoS: Request blocked"
                   , ip := jsOrString req.ip "unknown", url := req.url, method := req.method
                   , requestCount := (checkDDoSInMemory cfg (jsOrString req.ip "unknown") t
                       (cfg.windowSeconds * 1000) st).1.count
                   , threshold := none, userAgent := req.userAgent } ]
        , response := some blockedResponse
        , nextCalled := false }) ∧
    ((checkDDoSInMemory cfg (jsOrString req.ip "unknown") t
        (cfg.windowSeconds * 1000) st).1.blocked = false →
      (checkDDoSInMemory cfg (jsOrString req.ip "unknown") t
        (cfg.windowSeconds * 1000) st).1.suspicious = true →
      ddosDetector cfg req t st =
        { state := (checkDDoSInMemory cfg (jsOrString req.ip "unknown") t
            (cfg.windowSeconds * 1000) st).2
        , log := [ { level := LogLevel.warn, message := "DDoS: Suspicious activity detected"
                   , ip := jsOrString req.ip "unknown", url := req.url, method := req.method
                   , requestCount := (checkDDoSInMemory cfg (jsOrString req.ip "unknown") t
                       (cfg.windowSeconds * 1000) st).1.count
                   , threshold := some cfg.requestThreshold, userAgent := req.userAgent } ]
        , response := none
        , nextCalled := true }) ∧
    ((checkDDoSInMemory cfg (jsOrString req.ip "unknown") t
        (cfg.windowSeconds * 1000) st).1.blocked = false →
      (checkDDoSInMemory cfg (jsOrString req.ip "unknown") t
        (cfg.windowSeconds * 1000) st).1.suspicious = false →
      ddosDetector cfg req t st =
        { state := (checkDDoSInMemory cfg (jsOrString req.ip "unknown") t
            (cfg.windowSeconds * 1000) st).2
        , log := [], response := none, nextCalled := true }) := by
  refine ⟨?_, ?_, ?_⟩
  · intro hb
    simp [ddosDetector, h, hb]
  · intro hb hs
    simp [ddosDetector, h, hb, hs]
  · intro hb hs
    simp [ddosDetector, h, hb, hs]

/-- Claim C3 witness: the 100th request of "10.0.0.5" within one default
window is suspicious and yields exactly the warning event with the threshold
field. -/
theorem c3_events_and_rejection_amended_witness :
    ddosDetector cfgDefaults reqApi 500 stWarn =
      { state := (checkDDoSInMemory cfgDefaults (jsOrString reqApi.ip "unknown") 500
          (cfgDefaults.windowSeconds * 1000) stWarn).2
      , log := [ { level := LogLevel.warn, message := "DDoS: Suspicious activity detected"
                 , ip := jsOrString reqApi.ip "unknown", url := reqApi.url
                 , method := reqApi.method
                 , requestCount := (checkDDoSInMemory cfgDefaults
                     (jsOrString reqApi.ip "unknown") 500
                     (cfgDefaults.windowSeconds * 1000) stWarn).1.count
                 , threshold := some cfgDefaults.requestThreshold
                 , userAgent := reqApi.userAgent } ]
      , response := none
      , nextCalled := true } :=
  (c3_events_and_rejection_amended cfgDefaults reqApi 500 stWarn rfl).2.1
    (by decide) (by decide)

/-- Claim C4: the configuration module defines no enabled field under ddos,
so the property access config.ddos.enabled yields undefined; the detector
guard is therefore falsy under wiring from the config module, and every
request passes through with no state mutation, no events and no response —
until updateDDoSConfig installs an explicit truthy enabled value. -/
theorem c4_enabled_undefined_passthrough :
    (∀ env : String → Option String, jsGetField (configDdos env) "enabled" = none) ∧
    (∀ (cfg : DdosConfig) (req : Request) (t : Int) (st : DetectorState),
      cfg.enabled = none →
      ddosDetector cfg req t st =
        { state := st, log := [], response := none, nextCalled := true }) ∧
    (∀ cfg : DdosConfig,
      jsTruthy (updateDDoSConfig cfg
        { enabled := some (some (JsValue.bool true)), windowSeconds := none
        , requestThreshold := none, blockThreshold := none
        , blockDuration := none }).enabled = true) := by
  refine ⟨?_, ?_, ?_⟩
  · intro env
    simp [configDdos, jsGetField]
  · intro cfg req t st h
    exact ddosDetector_not_enabled cfg req t st (by rw [h]; rfl)
  · intro cfg
    simp [updateDDoSConfig, jsTruthy]

/-- Claim C4 witness: with enabled undefined (as wired from the config
module) and the default numeric options, a concrete request passes through
untouched. -/
theorem c4_enabled_undefined_passthrough_witness :
    ddosDetector
      { enabled := none, windowSeconds := 60, requestThreshold := 100
      , blockThreshold := 200, blockDuration := 300 }
      reqClientA 0 DetectorState.empty =
      { state := DetectorState.empty, log := [], response := none, nextCalled := true } :=
  c4_enabled_undefined_passthrough.2.1
    { enabled := none, windowSeconds := 60, requestThreshold := 100
    , blockThreshold := 200, blockDuration := 300 }
    reqClientA 0 DetectorState.empty rfl

/-- Claim C5 counterexample: with windowSeconds 1, a first request of "a" at
time 0 and a second one at time 1000 ms — exactly windowSeconds after
windowStart, so the claim's "≥ windowSeconds elapsed" reset condition holds —
the code does not reset: the cleanup requires strictly more than windowMs, so
the count becomes 2 on the old window instead of 1. -/
theorem c5_window_boundary_counterexample :
    (checkDDoSInMemory cfgBoundary "a" 1000 1000
        (checkDDoSInMemory cfgBoundary "a" 0 1000 DetectorState.empty).2).1.count = 2 ∧
    mapGet (checkDDoSInMemory cfgBoundary "a" 1000 1000
        (checkDDoSInMemory cfgBoundary "a" 0 1000 DetectorState.empty).2).2.requestTracker "a" =
      some { count := 2, firstRequest := 0, blocked := false } ∧
    ((1000 : Int) - 0 ≥ 1 * 1000) := by
  decide

/-- Claim C5 (amended): within a surviving window (at most windowMs since
firstRequest) the stored count never decreases across an evaluation; when
strictly more than windowMs has elapsed since firstRequest, the next
evaluation resets the record to count 1 on a fresh window and is allowed
(when both thresholds exceed 1). -/
theorem c5_count_monotone_reset_amended (cfg : DdosConfig) (ip : String)
    (currentTime windowMs : Int) (st : DetectorState) (t0 : Tracker) :
    (mapGet st.requestTracker ip = some t0 →
      currentTime - t0.firstRequest ≤ windowMs →
      t0.count ≤ (checkDDoSInMemory cfg ip currentTime windowMs st).1.count ∧
      ∃ t1, mapGet (checkDDoSInMemory cfg ip currentTime windowMs st).2.requestTracker ip =
          some t1 ∧ t0.count ≤ t1.count) ∧
    (mapGet st.requestTracker ip = some t0 →
      currentTime - t0.firstRequest > windowMs →
      1 < cfg.requestThreshold → 1 < cfg.blockThreshold →
      (checkDDoSInMemory cfg ip currentTime windowMs st).1 =
        { blocked := false, suspicious := false, count := 1 } ∧
      mapGet (checkDDoSInMemory cfg ip currentTime windowMs st).2.requestTracker ip =
        some { count := 1, firstRequest := currentTime, blocked := false }) := by
  constructor
  · intro hm hwin
    have hnot : ¬ currentTime - t0.firstRequest > windowMs := by omega
    by_cases hb : t0.blocked = true
    · rw [checkDDoSInMemory_blocked_within cfg ip currentTime windowMs st t0 hm hb hnot]
      exact ⟨le_refl _, t0, hm, le_refl _⟩
    · simp only [checkDDoSInMemory, hm, if_neg hnot]
      simp only [ddosTrackRequest, Option.getD_some, hb, if_false, Bool.false_eq_true]
      by_cases h1 : cfg.blockThreshold ≤ t0.count + 1
      · simp only [if_pos h1]
        refine ⟨by show t0.count ≤ t0.count + 1; omega, ?_⟩
        refine ⟨_, mapGet_mapSet_self _ _ _, ?_⟩
        show t0.count ≤ t0.count + 1
        omega
      · simp only [if_neg h1]
        refine ⟨by show t0.count ≤ t0.count + 1; omega, ?_⟩
        refine ⟨_, mapGet_mapSet_self _ _ _, ?_⟩
        show t0.count ≤ t0.count + 1
        omega
  · intro hm hexp h1 h2
    rw [checkDDoSInMemory_expired_reset cfg ip currentTime windowMs st t0 hm hexp h1 h2]
    exact ⟨rfl, mapGet_mapSet_self _ _ _⟩

/-- Claim C5 witness: an entry of "a" with count 3 within the default window
does not decrease on the next evaluation, and an entry whose window has
strictly expired resets to count 1 and is allowed. -/
theorem c5_count_monotone_reset_amended_witness :
    ((3 : Int) ≤ (checkDDoSInMemory cfgDefaults "a" 500 60000 stMono).1.count ∧
     ∃ t1, mapGet (checkDDoSInMemory cfgDefaults "a" 500 60000 stMono).2.requestTracker "a" =
        some t1 ∧ (3 : Int) ≤ t1.count) ∧
    ((checkDDoSInMemory cfgDefaults "a" 70000 60000 stMono).1 =
      { blocked := false, suspicious := false, count := 1 } ∧
     mapGet (checkDDoSInMemory cfgDefaults "a" 70000 60000 stMono).2.requestTracker "a" =
        some { count := 1, firstRequest := 70000, blocked := false }) :=
  ⟨(c5_count_monotone_reset_amended cfgDefaults "a" 500 60000 stMono
      { count := 3, firstRequest := 0, blocked := false }).1 (by decide) (by decide),
   (c5_count_monotone_reset_amended cfgDefaults "a" 70000 60000 stMono
      { count := 3, firstRequest := 0, blocked := false }).2 (by decide) (by decide)
      (by decide) (by decide)⟩

/-- Claim C6: against a shared store that raises on every call — whether the
client lookup itself rejects or every operation of an obtained client rejects
— the classification trace and the final state over any request sequence are
identical to the run with no store configured: both reduce to the in-memory
tracker. -/
theorem c6_store_failure_transparent (cfg : DdosConfig) (st : DetectorState)
    (evts : List (String × Int)) (e : String) :
    runCheckDDoS (Except.ok (some failingClient)) cfg st evts =
      runCheckDDoS (Except.ok none) cfg st evts ∧
    runCheckDDoS (Except.error e) cfg st evts =
      runCheckDDoS (Except.ok none) cfg st evts := by
  constructor
  · exact runCheckDDoS_store_error (Except.ok (some failingClient)) cfg evts
      (fun ip => ⟨"Redis connection failed", rfl⟩) st
  · exact runCheckDDoS_store_error (Except.error e) cfg evts
      (fun ip => ⟨e, rfl⟩) st

/-- Claim C7: when the store attempt of an evaluation errors (client lookup
or any store operation), checkDDoS catches it, records the debug-level
fallback log, and returns exactly the in-memory fallback classification and
state for that single call — the error is not propagated and the caller
receives a definite result. -/
theorem c7_store_error_contained (getClient : Except String (Option RedisClient))
    (cfg : DdosConfig) (ip : String) (currentTime windowMs : Int)
    (st : DetectorState) (e : String)
    (h : ddosStoreAttempt getClient cfg ip = Except.error e) :
    checkDDoS getClient cfg ip currentTime windowMs st =
      ((checkDDoSInMemory cfg ip currentTime windowMs st).1,
       (checkDDoSInMemory cfg ip currentTime windowMs st).2, true) := by
  simp [checkDDoS, h]

/-- Claim C7 witness: with a client on which every call raises, the
evaluation falls back to the in-memory result and records the debug log. -/
theorem c7_store_error_contained_witness :
    checkDDoS (Except.ok (some failingClient)) cfgDefaults "a" 0 60000 DetectorState.empty =
      ((checkDDoSInMemory cfgDefaults "a" 0 60000 DetectorState.empty).1,
       (checkDDoSInMemory cfgDefaults "a" 0 60000 DetectorState.empty).2, true) :=
  c7_store_error_contained (Except.ok (some failingClient)) cfgDefaults "a" 0 60000
    DetectorState.empty "Redis connection failed" rfl

/-- Claim C8: with the detector disabled (a falsy enabled flag), every
request passes through with zero observable side effects: the state is
unchanged, no events are emitted, no response is written, and next is
invoked. -/
theorem c8_disabled_no_side_effects (cfg : DdosConfig) (req : Request) (t : Int)
    (st : DetectorState) (h : jsTruthy cfg.enabled = false) :
    ddosDetector cfg req t st =
      { state := st, log := [], response := none, nextCalled := true } :=
  ddosDetector_not_enabled cfg req t st h

/-- Claim C8 witness: a concrete disabled configuration passes a request
through untouched. -/
theorem c8_disabled_no_side_effects_witness :
    ddosDetector
      { enabled := some (JsValue.bool false), windowSeconds := 60
      , requestThreshold := 100, blockThreshold := 200, blockDuration := 300 }
      reqClientA 5 DetectorState.empty =
      { state := DetectorState.empty, log := [], response := none, nextCalled := true } :=
  c8_disabled_no_side_effects
    { enabled := some (JsValue.bool false), windowSeconds := 60
    , requestThreshold := 100, blockThreshold := 200, blockDuration := 300 }
    reqClientA 5 DetectorState.empty rfl

/-- Claim C9 (code bug): loading the ddos configuration section with a
non-positive DDOS_WINDOW_SECONDS succeeds — getEnvNumber parses the value
with no positivity check and cannot throw, so the configuration is built with
windowSeconds -5 and no startup failure occurs. -/
theorem c9_nonpositive_config_accepted :
    configDdos envNegWindow =
      [ ("windowSeconds", JsValue.num (JsNumber.int (-5)))
      , ("requestThreshold", JsValue.num (JsNumber.int 100))
      , ("blockThreshold", JsValue.num (JsNumber.int 200))
      , ("blockDuration", JsValue.num (JsNumber.int 300)) ] ∧
    getEnvNumber (some "-5") 60 = JsNumber.int (-5) ∧ ((-5 : Int) ≤ 0) := by
  decide

/-- Claim C10 (code bug): after a single request of "10.0.0.5" at time 0
under the default (enabled) configuration, the module holds a count-1 entry
and no pending timer; however much time passes and whatever other clients do,
that stale entry is never removed — deletion happens only inside an
evaluation for that same identifier or through a timer scheduled only when a
block triggers, and neither applies. -/
theorem c10_stale_entry_never_reclaimed :
    (staleState =
      { requestTracker := [("10.0.0.5", { count := 1, firstRequest := 0, blocked := false })]
      , timers := [] }) ∧
    (∀ evts : List (Request × Int),
      (∀ p ∈ evts, jsOrString p.1.ip "unknown" ≠ "10.0.0.5") →
      mapGet (runDetector cfgDefaults staleState evts).1.requestTracker "10.0.0.5" =
        some { count := 1, firstRequest := 0, blocked := false }) := by
  constructor
  · decide
  · intro evts hev
    have h := runDetector_preserves_other cfgDefaults "10.0.0.5" evts staleState hev
      (by decide)
    rw [h.1]
    decide

/-- Claim C10 witness: the stale entry of "10.0.0.5" survives a much later
request from a different client. -/
theorem c10_stale_entry_never_reclaimed_witness :
    mapGet (runDetector cfgDefaults staleState
        [(reqClientA, 999999999)]).1.requestTracker "10.0.0.5" =
      some { count := 1, firstRequest := 0, blocked := false } :=
  c10_stale_entry_never_reclaimed.2 [(reqClientA, 999999999)] (by decide)

end DDoS
